import Mathlib

/-!
Verification of the cross-section calculation engine (cross_section.py):
per-shell atomic data (class Atom and AtomFactory), the kinematic base
class CrossSectionCalc, the BED and BEB total-ionization-cross-section
calculators and the Bethe high-energy asymptote.

Python float arithmetic is modelled by exact real arithmetic, numpy
vectors over shells by functions out of Fin S, and the adaptive
quadrature scipy.integrate.quad by the mathematical interval integral.
-/

noncomputable section

/-- Per-shell atomic data, mirroring class Atom.  S is the number of
subshells; B, N, Ni, Mi, U_bed are per-shell vectors and ai_below /
ai_above are S x 7 coefficient matrices of the oscillator-strength fit. -/
structure Atom (S : ℕ) where
  Z : ℝ
  B : Fin S → ℝ
  N : Fin S → ℝ
  Ni : Fin S → ℝ
  Mi : Fin S → ℝ
  ai_below : Fin S → Fin 7 → ℝ
  ai_above : Fin S → Fin 7 → ℝ
  U_bed : Fin S → ℝ

/-- AtomFactory.get_hydrogen: one shell. -/
def AtomFactory.get_hydrogen : Atom 1 where
  Z := 1
  B := fun _ => 13.6057
  N := fun _ => 1
  Ni := fun _ => 0.4343
  Mi := fun _ => 0.2834
  ai_below := fun _ => ![0, -2.2473e-2, 1.1775, -4.6264e-1, 8.9064e-2, 0, 0]
  ai_above := fun _ => ![0, -2.2473e-2, 1.1775, -4.6264e-1, 8.9064e-2, 0, 0]
  U_bed := fun _ => 13.6057

/-- AtomFactory.get_h2: one shell. -/
def AtomFactory.get_h2 : Atom 1 where
  Z := 2
  B := fun _ => 1.543e1
  N := fun _ => 2
  Ni := fun _ => 1.173
  Mi := fun _ => 0.68
  ai_below := fun _ => ![0, 0, 1.1262, 6.3982, -7.8055, 2.144, 0]
  ai_above := fun _ => ![0, 0, 1.1262, 6.3982, -7.8055, 2.144, 0]
  U_bed := fun _ => 2.568e1

/-- AtomFactory.get_helium: one shell. -/
def AtomFactory.get_helium : Atom 1 where
  Z := 2
  B := fun _ => 2.459e1
  N := fun _ => 2
  Ni := fun _ => 1.605
  Mi := fun _ => 0.489
  ai_below := fun _ => ![0, 0, 1.2178e1, -2.9585e1, 3.1251e1, -1.2175e1, 0]
  ai_above := fun _ => ![0, 0, 1.2178e1, -2.9585e1, 3.1251e1, -1.2175e1, 0]
  U_bed := fun _ => 3.951e1

/-- AtomFactory.get_neon: three shells. -/
def AtomFactory.get_neon : Atom 3 where
  Z := 10
  B := ![21.7, 48.47, 866.9]
  N := ![6, 2, 2]
  Ni := ![6.963, 0.7056, 1.686]
  Mi := ![1.552, 4.8e-2, 1.642e-2]
  ai_below := ![![4.8791, -2.882, -7.4711e-1, 0, 0, 0, 0],
    ![0, 1.7769, 2.8135, -3.151e1, 6.3469e1, -5.2528e1, 1.5982e1],
    ![0, 0, 5.2475, -2.8121, 0, 0, 0]]
  ai_above := ![![0, -5.8514, 3.2930e2, -1.6788e3, 3.2985e3, -2.3250e3, 0],
    ![0, 1.7769, 2.8135, -3.151e1, 6.3469e1, -5.2528e1, 1.5982e1],
    ![0, 0, 5.2475, -2.8121, 0, 0, 0]]
  U_bed := ![1.1602e2, 1.4188e2, 1.2591e3]

/-- Kinematic state shared by all calculators: the class attributes of
CrossSectionCalc set in its constructor. -/
structure CrossSectionCalc (S : ℕ) where
  atom : Atom S
  T : ℝ
  t : Fin S → ℝ
  w_max : Fin S → ℝ
  u : Fin S → ℝ

/-- Class constant: electron mass in kg. -/
def CrossSectionCalc.m_e : ℝ := 9.11e-31

/-- Class constant: speed of light in m/s. -/
def CrossSectionCalc.c : ℝ := 3e8

/-- Class constant: Bohr radius in cm. -/
def CrossSectionCalc.a_0 : ℝ := 5.29e-9

/-- Class constant: fine structure constant. -/
def CrossSectionCalc.alpha : ℝ := 1.0 / 137

/-- Class constant: Rydberg constant in eV. -/
def CrossSectionCalc.R : ℝ := 13.6

/-- CrossSectionCalc.__init__: stores atom and T and derives the
per-shell vectors t = T / B, w_max = (t - 1) / 2 and u = U_bed / B.
The Python constructor performs no validation of T. -/
def CrossSectionCalc.init {S : ℕ} (T : ℝ) (atom : Atom S) : CrossSectionCalc S where
  atom := atom
  T := T
  t := fun s => T / atom.B s
  w_max := fun s => (T / atom.B s - 1) / 2
  u := fun s => atom.U_bed s / atom.B s

/-- CrossSectionCalcBed.calculate_modified_oscillator_strength:
df/dw divided by (w+1); selects ai_below when (w+1)*B[shell] < 48.47
and ai_above otherwise, dots the selected row with the seven inverse
powers (w+1)^-1 .. (w+1)^-7 and multiplies by 1/(w+1). -/
def CrossSectionCalcBed.calculate_modified_oscillator_strength {S : ℕ}
    (self : CrossSectionCalc S) (w : ℝ) (n_shell : Fin S) : ℝ :=
  let threshold := (w + 1) * self.atom.B n_shell
  let coefficient_matrix := if threshold < 48.47 then self.atom.ai_below else self.atom.ai_above
  let quotient : Fin 7 → ℝ := fun i => 1 / (w + 1) ^ ((i : ℕ) + 1)
  let osc_str : Fin S → ℝ := fun m => ∑ i, coefficient_matrix m i * quotient i
  1 / (w + 1) * osc_str n_shell

/-- Body of the loop over n_shell in CrossSectionCalcBed.calculate:
the value stored in integrated_cross_sec_subshells[n_shell], built by the
same sequence of updates as the source (quad result, *= log t / N,
+= summand1, *= factor). -/
def CrossSectionCalcBed.shell_contribution {S : ℕ}
    (self : CrossSectionCalc S) (n_shell : Fin S) : ℝ :=
  let u := self.atom.U_bed n_shell / self.atom.B n_shell
  let S_factor := 4 * Real.pi * CrossSectionCalc.a_0 ^ 2 * self.atom.N n_shell *
    (CrossSectionCalc.R / self.atom.B n_shell) ^ 2
  let factor := S_factor / (self.t n_shell + u + 1)
  let sub_factor1_1 := 2 - self.atom.Ni n_shell / self.atom.N n_shell
  let sub_factor1_2 := (self.t n_shell - 1) / self.t n_shell -
    Real.log (self.t n_shell) / (self.t n_shell + 1)
  let summand1 := sub_factor1_1 * sub_factor1_2
  let acc0 := ∫ w in (0:ℝ)..self.w_max n_shell,
    CrossSectionCalcBed.calculate_modified_oscillator_strength self w n_shell
  let acc1 := acc0 * (Real.log (self.t n_shell) / self.atom.N n_shell)
  let acc2 := acc1 + summand1
  acc2 * factor

/-- CrossSectionCalcBed.calculate: sum of the per-shell loop results. -/
def CrossSectionCalcBed.calculate {S : ℕ} (self : CrossSectionCalc S) : ℝ :=
  ∑ n_shell, CrossSectionCalcBed.shell_contribution self n_shell

/-- CrossSectionCalcBed.bethe_asymptotic: per shell S * Q / 2 * log t / t
with Q = 2 * B * Mi / (N * R), summed and scaled by 1e4. -/
def CrossSectionCalcBed.bethe_asymptotic {S : ℕ} (self : CrossSectionCalc S) : ℝ :=
  let cross_section_vec : Fin S → ℝ := fun n_shell =>
    let S_factor := 4 * Real.pi * CrossSectionCalc.a_0 ^ 2 * self.atom.N n_shell *
      (CrossSectionCalc.R / self.atom.B n_shell) ^ 2
    let Q := 2 * self.atom.B n_shell * self.atom.Mi n_shell /
      (self.atom.N n_shell * CrossSectionCalc.R)
    S_factor * Q / 2 * Real.log (self.t n_shell) / self.t n_shell
  1.0e4 * ∑ n_shell, cross_section_vec n_shell

/-- CrossSectionCalcBeb: subclass state, adding the fixed parameter Q. -/
structure CrossSectionCalcBeb (S : ℕ) extends CrossSectionCalc S where
  Q : ℝ

/-- CrossSectionCalcBeb.__init__: base constructor plus Q = 1/2. -/
def CrossSectionCalcBeb.init {S : ℕ} (T : ℝ) (atom : Atom S) : CrossSectionCalcBeb S :=
  { CrossSectionCalc.init T atom with Q := 1 / 2 }

/-- Body of the loop over n_shell in CrossSectionCalcBeb.calculate:
the value stored in integrated_cross_sec_subshells[n_shell]
(starts at 0, += summand1 + summand2, *= factor). -/
def CrossSectionCalcBeb.shell_contribution {S : ℕ}
    (self : CrossSectionCalcBeb S) (n_shell : Fin S) : ℝ :=
  let u := self.atom.U_bed n_shell / self.atom.B n_shell
  let S_factor := 4 * Real.pi * CrossSectionCalc.a_0 ^ 2 * self.atom.N n_shell *
    (CrossSectionCalc.R / self.atom.B n_shell) ^ 2
  let factor := S_factor / (self.t n_shell + u + 1)
  let sub_factor1_1 := self.Q / 2
  let sub_factor1_2 := (1 - 1 / self.t n_shell ^ 2) * Real.log (self.t n_shell)
  let summand1 := sub_factor1_1 * sub_factor1_2
  let sub_factor2_1 := 2 - self.Q
  let sub_factor2_2 := (self.t n_shell - 1) / self.t n_shell -
    Real.log (self.t n_shell) / (self.t n_shell + 1)
  let summand2 := sub_factor2_1 * sub_factor2_2
  (0 + (summand1 + summand2)) * factor

/-- CrossSectionCalcBeb.calculate: sum of the per-shell loop results;
contains no integral. -/
def CrossSectionCalcBeb.calculate {S : ℕ} (self : CrossSectionCalcBeb S) : ℝ :=
  ∑ n_shell, CrossSectionCalcBeb.shell_contribution self n_shell

/-- Error raised by the catalog lookup for an unsupported species. -/
inductive CatalogError where
  | unknownSpecies (species : String) : CatalogError

/-- Modelled from the spec: the dispatcher AtomCatalog.get(species) is
absent from the source (AtomFactory only exposes the four static
getters), so the lookup is modelled from the spec contract: it returns
the canonical pre-validated AtomData for species in
{hydrogen, h2, helium, neon} and fails with UnknownSpeciesError for any
other input; the four tables themselves are the ones transcribed from
the source above. -/
def AtomFactory.get (species : String) : Except CatalogError ((n : ℕ) × Atom n) :=
  if species = "hydrogen" then .ok ⟨1, AtomFactory.get_hydrogen⟩
  else if species = "h2" then .ok ⟨1, AtomFactory.get_h2⟩
  else if species = "helium" then .ok ⟨1, AtomFactory.get_helium⟩
  else if species = "neon" then .ok ⟨3, AtomFactory.get_neon⟩
  else .error (CatalogError.unknownSpecies species)

/-- State-passing reading of CrossSectionCalcBed.calculate: the method
body reads self.atom, self.t and self.w_max and assigns only to the
local array integrated_cross_sec_subshells, never to self or to the
atom, so the post-state is the pre-state. -/
def CrossSectionCalcBed.calculateS {S : ℕ} (self : CrossSectionCalc S) :
    ℝ × CrossSectionCalc S :=
  (CrossSectionCalcBed.calculate self, self)

/-- State-passing reading of CrossSectionCalcBeb.calculate: the method
body assigns only to its local array, never to self or to the atom. -/
def CrossSectionCalcBeb.calculateS {S : ℕ} (self : CrossSectionCalcBeb S) :
    ℝ × CrossSectionCalcBeb S :=
  (CrossSectionCalcBeb.calculate self, self)

/-- One-shell atom with B = 1 and a single nonzero oscillator-strength
fit coefficient a_1 = 1 (both rows equal), so that the modified
oscillator strength is (w+1)^-2 and its integral has a closed form. -/
def unitAtom : Atom 1 where
  Z := 1
  B := fun _ => 1
  N := fun _ => 1
  Ni := fun _ => 1
  Mi := fun _ => 1
  ai_below := fun _ => ![1, 0, 0, 0, 0, 0, 0]
  ai_above := fun _ => ![1, 0, 0, 0, 0, 0, 0]
  U_bed := fun _ => 1

/-- Copy of an AtomData with the occupation number of one shell
replaced, all other parameters held fixed. -/
def Atom.withN {S : ℕ} (a : Atom S) (s0 : Fin S) (v : ℝ) : Atom S :=
  { a with N := Function.update a.N s0 v }

/-- C4: construction derives, per shell, exactly t = T / B,
w_max = (t - 1) / 2 and u = U_bed / B; these are fixed at construction
and a calculate call (state-passing reading) leaves the whole context,
hence every derived quantity, unchanged. -/
theorem c4_kinematic_context {S : ℕ} (T : ℝ) (atom : Atom S) :
    (∀ s, (CrossSectionCalc.init T atom).t s = T / atom.B s) ∧
    (∀ s, (CrossSectionCalc.init T atom).w_max s =
      ((CrossSectionCalc.init T atom).t s - 1) / 2) ∧
    (∀ s, (CrossSectionCalc.init T atom).u s = atom.U_bed s / atom.B s) ∧
    (CrossSectionCalcBed.calculateS (CrossSectionCalc.init T atom)).2 =
      CrossSectionCalc.init T atom ∧
    (CrossSectionCalcBeb.calculateS (CrossSectionCalcBeb.init T atom)).2 =
      CrossSectionCalcBeb.init T atom :=
  ⟨fun _ => rfl, fun _ => rfl, fun _ => rfl, rfl, rfl⟩

/-- C7 counterexample: the constructor validates nothing, so at the
non-positive energy T = -1 construction succeeds and returns the fully
populated kinematic context instead of failing with InvalidEnergyError. -/
theorem c7_counterexample :
    (CrossSectionCalc.init (-1) AtomFactory.get_hydrogen).T = -1 ∧
    (CrossSectionCalc.init (-1) AtomFactory.get_hydrogen).t 0 = -1 / 13.6057 ∧
    (CrossSectionCalc.init (-1) AtomFactory.get_hydrogen).atom =
      AtomFactory.get_hydrogen :=
  ⟨rfl, rfl, rfl⟩

/-- C7 amended: construction never fails: for every T, including every
T ≤ 0, it succeeds and computes the documented derived quantities
(and a fortiori a sub-threshold T ≤ B[s] is not rejected either). -/
theorem c7_no_energy_validation {S : ℕ} (T : ℝ) (atom : Atom S) (hT : T ≤ 0) :
    (CrossSectionCalc.init T atom).T = T ∧
    (∀ s, (CrossSectionCalc.init T atom).t s = T / atom.B s) ∧
    (∀ s, (CrossSectionCalc.init T atom).w_max s = (T / atom.B s - 1) / 2) ∧
    (∀ s, (CrossSectionCalc.init T atom).u s = atom.U_bed s / atom.B s) :=
  ⟨rfl, fun _ => rfl, fun _ => rfl, fun _ => rfl⟩

/-- Witness for the amended C7 at the concrete input T = 0, h2. -/
theorem c7_no_energy_validation_witness :
    (CrossSectionCalc.init 0 AtomFactory.get_h2).T = 0 ∧
    (∀ s, (CrossSectionCalc.init 0 AtomFactory.get_h2).t s =
      0 / AtomFactory.get_h2.B s) ∧
    (∀ s, (CrossSectionCalc.init 0 AtomFactory.get_h2).w_max s =
      (0 / AtomFactory.get_h2.B s - 1) / 2) ∧
    (∀ s, (CrossSectionCalc.init 0 AtomFactory.get_h2).u s =
      AtomFactory.get_h2.U_bed s / AtomFactory.get_h2.B s) :=
  c7_no_energy_validation 0 AtomFactory.get_h2 le_rfl

/-- C8 (catalog lookup; the dispatcher is modelled from the spec): get
returns the canonical AtomData for each of the four supported species
and fails with UnknownSpeciesError on every other species; being a plain
Lean function it has no side effects. -/
theorem c8_catalog_get :
    (AtomFactory.get "hydrogen" = .ok ⟨1, AtomFactory.get_hydrogen⟩ ∧
      AtomFactory.get "h2" = .ok ⟨1, AtomFactory.get_h2⟩ ∧
      AtomFactory.get "helium" = .ok ⟨1, AtomFactory.get_helium⟩ ∧
      AtomFactory.get "neon" = .ok ⟨3, AtomFactory.get_neon⟩) ∧
    ∀ species : String,
      species ∉ (["hydrogen", "h2", "helium", "neon"] : List String) →
      AtomFactory.get species = .error (CatalogError.unknownSpecies species) := by
  refine ⟨⟨rfl, rfl, rfl, rfl⟩, ?_⟩
  intro species hs
  simp only [List.mem_cons, List.not_mem_nil, or_false, not_or] at hs
  obtain ⟨h1, h2, h3, h4⟩ := hs
  simp [AtomFactory.get, h1, h2, h3, h4]

/-- Witness for C8 at the concrete unsupported species argon. -/
theorem c8_catalog_get_witness :
    AtomFactory.get "argon" = .error (CatalogError.unknownSpecies "argon") :=
  c8_catalog_get.2 "argon" (by simp)

/-- C9: in the BEB model a shell's contribution to calculate is linear
in its occupation number: doubling N[s0] with every other AtomData
parameter held fixed exactly doubles that shell's contribution. -/
theorem c9_beb_linear_in_occupation {S : ℕ} (T : ℝ) (a : Atom S) (s0 : Fin S) :
    CrossSectionCalcBeb.shell_contribution
        (CrossSectionCalcBeb.init T (a.withN s0 (2 * a.N s0))) s0 =
      2 * CrossSectionCalcBeb.shell_contribution (CrossSectionCalcBeb.init T a) s0 := by
  simp only [CrossSectionCalcBeb.shell_contribution, CrossSectionCalcBeb.init,
    CrossSectionCalc.init, Atom.withN, Function.update_same]
  ring

/-- C10: calculate mutates nothing (the state-passing reading returns
the context unchanged for both models) and is deterministic: calculators
built from equal (T, AtomData) inputs return equal results. -/
theorem c10_calculate_pure {S : ℕ} (T1 T2 : ℝ) (a1 a2 : Atom S)
    (hT : T1 = T2) (ha : a1 = a2) :
    (CrossSectionCalcBed.calculateS (CrossSectionCalc.init T1 a1)).2 =
      CrossSectionCalc.init T1 a1 ∧
    (CrossSectionCalcBeb.calculateS (CrossSectionCalcBeb.init T1 a1)).2 =
      CrossSectionCalcBeb.init T1 a1 ∧
    CrossSectionCalcBed.calculate (CrossSectionCalc.init T1 a1) =
      CrossSectionCalcBed.calculate (CrossSectionCalc.init T2 a2) ∧
    CrossSectionCalcBeb.calculate (CrossSectionCalcBeb.init T1 a1) =
      CrossSectionCalcBeb.calculate (CrossSectionCalcBeb.init T2 a2) := by
  subst hT
  subst ha
  exact ⟨rfl, rfl, rfl, rfl⟩

/-- Witness for C10 at the concrete input T = 100, helium. -/
theorem c10_calculate_pure_witness :
    (CrossSectionCalcBed.calculateS (CrossSectionCalc.init 100 AtomFactory.get_helium)).2 =
      CrossSectionCalc.init 100 AtomFactory.get_helium ∧
    (CrossSectionCalcBeb.calculateS (CrossSectionCalcBeb.init 100 AtomFactory.get_helium)).2 =
      CrossSectionCalcBeb.init 100 AtomFactory.get_helium ∧
    CrossSectionCalcBed.calculate (CrossSectionCalc.init 100 AtomFactory.get_helium) =
      CrossSectionCalcBed.calculate (CrossSectionCalc.init 100 AtomFactory.get_helium) ∧
    CrossSectionCalcBeb.calculate (CrossSectionCalcBeb.init 100 AtomFactory.get_helium) =
      CrossSectionCalcBeb.calculate (CrossSectionCalcBeb.init 100 AtomFactory.get_helium) :=
  c10_calculate_pure 100 100 AtomFactory.get_helium AtomFactory.get_helium rfl rfl

/-- C1: for a BED calculator built from (T, atom) with t > 1 on every
shell, calculate returns the sum over shells of
factor * (term_closed + term_integral * ln t / N) with
factor = 4 pi a_0^2 N (R/B)^2 / (t + u + 1),
term_closed = (2 - Ni/N) * ((t-1)/t - ln t/(t+1)) and term_integral the
integral of the modified oscillator strength from 0 to w_max. -/
theorem c1_bed_calculate_formula {S : ℕ} (T : ℝ) (atom : Atom S)
    (c : CrossSectionCalc S) (hc : c = CrossSectionCalc.init T atom)
    (ht : ∀ s, 1 < c.t s) :
    CrossSectionCalcBed.calculate c =
      ∑ s, 4 * Real.pi * CrossSectionCalc.a_0 ^ 2 * c.atom.N s *
          (CrossSectionCalc.R / c.atom.B s) ^ 2 / (c.t s + c.u s + 1) *
        ((2 - c.atom.Ni s / c.atom.N s) *
            ((c.t s - 1) / c.t s - Real.log (c.t s) / (c.t s + 1)) +
          (∫ w in (0:ℝ)..c.w_max s,
              CrossSectionCalcBed.calculate_modified_oscillator_strength c w s) *
            Real.log (c.t s) / c.atom.N s) := by
  subst hc
  unfold CrossSectionCalcBed.calculate
  refine Finset.sum_congr rfl fun s _ => ?_
  simp only [CrossSectionCalcBed.shell_contribution, CrossSectionCalc.init]
  ring

/-- Witness for C1 at the concrete input T = 3.81e9, hydrogen. -/
theorem c1_bed_calculate_formula_witness :
    CrossSectionCalcBed.calculate
        (CrossSectionCalc.init 3.81e9 AtomFactory.get_hydrogen) =
      ∑ s, 4 * Real.pi * CrossSectionCalc.a_0 ^ 2 *
          (CrossSectionCalc.init 3.81e9 AtomFactory.get_hydrogen).atom.N s *
          (CrossSectionCalc.R /
            (CrossSectionCalc.init 3.81e9 AtomFactory.get_hydrogen).atom.B s) ^ 2 /
          ((CrossSectionCalc.init 3.81e9 AtomFactory.get_hydrogen).t s +
            (CrossSectionCalc.init 3.81e9 AtomFactory.get_hydrogen).u s + 1) *
        ((2 - (CrossSectionCalc.init 3.81e9 AtomFactory.get_hydrogen).atom.Ni s /
              (CrossSectionCalc.init 3.81e9 AtomFactory.get_hydrogen).atom.N s) *
            (((CrossSectionCalc.init 3.81e9 AtomFactory.get_hydrogen).t s - 1) /
                (CrossSectionCalc.init 3.81e9 AtomFactory.get_hydrogen).t s -
              Real.log ((CrossSectionCalc.init 3.81e9 AtomFactory.get_hydrogen).t s) /
                ((CrossSectionCalc.init 3.81e9 AtomFactory.get_hydrogen).t s + 1)) +
          (∫ w in (0:ℝ)..(CrossSectionCalc.init 3.81e9 AtomFactory.get_hydrogen).w_max s,
              CrossSectionCalcBed.calculate_modified_oscillator_strength
                (CrossSectionCalc.init 3.81e9 AtomFactory.get_hydrogen) w s) *
            Real.log ((CrossSectionCalc.init 3.81e9 AtomFactory.get_hydrogen).t s) /
            (CrossSectionCalc.init 3.81e9 AtomFactory.get_hydrogen).atom.N s) :=
  c1_bed_calculate_formula 3.81e9 AtomFactory.get_hydrogen _ rfl
    (by
      intro s
      show (1:ℝ) < 3.81e9 / AtomFactory.get_hydrogen.B s
      norm_num [AtomFactory.get_hydrogen])

/-- C2: for a BEB calculator built from (T, atom) with t > 1 on every
shell, calculate returns the sum over shells of factor * (term1 + term2)
with Q = 1/2, term1 = (Q/2)(1 - 1/t^2) ln t and
term2 = (2 - Q)((t-1)/t - ln t/(t+1)); the closed form contains no
integral, so no numerical integration is performed. -/
theorem c2_beb_calculate_formula {S : ℕ} (T : ℝ) (atom : Atom S)
    (c : CrossSectionCalcBeb S) (hc : c = CrossSectionCalcBeb.init T atom)
    (ht : ∀ s, 1 < c.t s) :
    CrossSectionCalcBeb.calculate c =
      ∑ s, 4 * Real.pi * CrossSectionCalc.a_0 ^ 2 * c.atom.N s *
          (CrossSectionCalc.R / c.atom.B s) ^ 2 / (c.t s + c.u s + 1) *
        ((1 / 2) / 2 * (1 - 1 / c.t s ^ 2) * Real.log (c.t s) +
          (2 - 1 / 2) *
            ((c.t s - 1) / c.t s - Real.log (c.t s) / (c.t s + 1))) := by
  subst hc
  unfold CrossSectionCalcBeb.calculate
  refine Finset.sum_congr rfl fun s _ => ?_
  simp only [CrossSectionCalcBeb.shell_contribution, CrossSectionCalcBeb.init,
    CrossSectionCalc.init]
  ring

/-- Witness for C2 at the concrete input T = 3.81e9, hydrogen. -/
theorem c2_beb_calculate_formula_witness :
    CrossSectionCalcBeb.calculate
        (CrossSectionCalcBeb.init 3.81e9 AtomFactory.get_hydrogen) =
      ∑ s, 4 * Real.pi * CrossSectionCalc.a_0 ^ 2 *
          (CrossSectionCalcBeb.init 3.81e9 AtomFactory.get_hydrogen).atom.N s *
          (CrossSectionCalc.R /
            (CrossSectionCalcBeb.init 3.81e9 AtomFactory.get_hydrogen).atom.B s) ^ 2 /
          ((CrossSectionCalcBeb.init 3.81e9 AtomFactory.get_hydrogen).t s +
            (CrossSectionCalcBeb.init 3.81e9 AtomFactory.get_hydrogen).u s + 1) *
        ((1 / 2) / 2 *
            (1 - 1 / (CrossSectionCalcBeb.init 3.81e9 AtomFactory.get_hydrogen).t s ^ 2) *
            Real.log ((CrossSectionCalcBeb.init 3.81e9 AtomFactory.get_hydrogen).t s) +
          (2 - 1 / 2) *
            (((CrossSectionCalcBeb.init 3.81e9 AtomFactory.get_hydrogen).t s - 1) /
                (CrossSectionCalcBeb.init 3.81e9 AtomFactory.get_hydrogen).t s -
              Real.log ((CrossSectionCalcBeb.init 3.81e9 AtomFactory.get_hydrogen).t s) /
                ((CrossSectionCalcBeb.init 3.81e9 AtomFactory.get_hydrogen).t s + 1))) :=
  c2_beb_calculate_formula 3.81e9 AtomFactory.get_hydrogen _ rfl
    (by
      intro s
      show (1:ℝ) < 3.81e9 / AtomFactory.get_hydrogen.B s
      norm_num [AtomFactory.get_hydrogen])

/-- C5: for a BED calculator built from (T, atom) with t > 1 on every
shell, bethe_asymptotic returns 1e4 times the sum over shells of
S_factor * Q * ln t / t / 2 with S_factor = 4 pi a_0^2 N (R/B)^2 and
Q = 2 B Mi / (N R); the factor 1e4 multiplies the summed result once. -/
theorem c5_bethe_asymptotic_formula {S : ℕ} (T : ℝ) (atom : Atom S)
    (c : CrossSectionCalc S) (hc : c = CrossSectionCalc.init T atom)
    (ht : ∀ s, 1 < c.t s) :
    CrossSectionCalcBed.bethe_asymptotic c =
      1.0e4 * ∑ s, 4 * Real.pi * CrossSectionCalc.a_0 ^ 2 * c.atom.N s *
          (CrossSectionCalc.R / c.atom.B s) ^ 2 *
          (2 * c.atom.B s * c.atom.Mi s / (c.atom.N s * CrossSectionCalc.R)) *
          Real.log (c.t s) / c.t s / 2 := by
  subst hc
  simp only [CrossSectionCalcBed.bethe_asymptotic]
  refine congrArg (fun x : ℝ => 1.0e4 * x) ?_
  refine Finset.sum_congr rfl fun s _ => ?_
  ring

/-- Witness for C5 at the concrete input T = 1.4e7, helium. -/
theorem c5_bethe_asymptotic_formula_witness :
    CrossSectionCalcBed.bethe_asymptotic
        (CrossSectionCalc.init 1.4e7 AtomFactory.get_helium) =
      1.0e4 * ∑ s, 4 * Real.pi * CrossSectionCalc.a_0 ^ 2 *
          (CrossSectionCalc.init 1.4e7 AtomFactory.get_helium).atom.N s *
          (CrossSectionCalc.R /
            (CrossSectionCalc.init 1.4e7 AtomFactory.get_helium).atom.B s) ^ 2 *
          (2 * (CrossSectionCalc.init 1.4e7 AtomFactory.get_helium).atom.B s *
              (CrossSectionCalc.init 1.4e7 AtomFactory.get_helium).atom.Mi s /
            ((CrossSectionCalc.init 1.4e7 AtomFactory.get_helium).atom.N s *
              CrossSectionCalc.R)) *
          Real.log ((CrossSectionCalc.init 1.4e7 AtomFactory.get_helium).t s) /
          (CrossSectionCalc.init 1.4e7 AtomFactory.get_helium).t s / 2 :=
  c5_bethe_asymptotic_formula 1.4e7 AtomFactory.get_helium _ rfl
    (by
      intro s
      show (1:ℝ) < 1.4e7 / AtomFactory.get_helium.B s
      norm_num [AtomFactory.get_helium])

/-- C3: for w ≥ 0 and a valid shell, the oscillator-strength evaluation
equals the dot product of the selected coefficient row (ai_below exactly
when (w+1)*B < 48.47, ai_above otherwise) with the seven inverse powers
of x = w+1, divided by x; in particular at (w+1)*B = 48.47 exactly, the
above-threshold row is the one used. -/
theorem c3_oscillator_strength_eval {S : ℕ} (c : CrossSectionCalc S) (w : ℝ)
    (hw : 0 ≤ w) (s : Fin S) :
    CrossSectionCalcBed.calculate_modified_oscillator_strength c w s =
      (∑ i : Fin 7, (if (w + 1) * c.atom.B s < 48.47 then c.atom.ai_below s i
          else c.atom.ai_above s i) * ((w + 1) ^ ((i : ℕ) + 1))⁻¹) / (w + 1) ∧
    ((w + 1) * c.atom.B s = 48.47 →
      CrossSectionCalcBed.calculate_modified_oscillator_strength c w s =
        (∑ i : Fin 7, c.atom.ai_above s i * ((w + 1) ^ ((i : ℕ) + 1))⁻¹) / (w + 1)) := by
  have key : ∀ M : Fin S → Fin 7 → ℝ,
      1 / (w + 1) * ∑ i : Fin 7, M s i * (1 / (w + 1) ^ ((i : ℕ) + 1)) =
        (∑ i : Fin 7, M s i * ((w + 1) ^ ((i : ℕ) + 1))⁻¹) / (w + 1) := by
    intro M
    rw [one_div, div_eq_mul_inv, mul_comm]
    simp only [one_div]
  constructor
  · simp only [CrossSectionCalcBed.calculate_modified_oscillator_strength]
    by_cases hth : (w + 1) * c.atom.B s < 48.47
    · simp only [if_pos hth]
      exact key c.atom.ai_below
    · simp only [if_neg hth]
      exact key c.atom.ai_above
  · intro heq
    simp only [CrossSectionCalcBed.calculate_modified_oscillator_strength]
    rw [heq, if_neg (lt_irrefl (48.47 : ℝ))]
    exact key c.atom.ai_above

/-- Witness for C3 at the concrete input w = 0, hydrogen, shell 0. -/
theorem c3_oscillator_strength_eval_witness :
    CrossSectionCalcBed.calculate_modified_oscillator_strength
        (CrossSectionCalc.init 100 AtomFactory.get_hydrogen) 0 0 =
      (∑ i : Fin 7,
          (if ((0:ℝ) + 1) *
              (CrossSectionCalc.init 100 AtomFactory.get_hydrogen).atom.B 0 < 48.47 then
            (CrossSectionCalc.init 100 AtomFactory.get_hydrogen).atom.ai_below 0 i
          else (CrossSectionCalc.init 100 AtomFactory.get_hydrogen).atom.ai_above 0 i) *
          (((0:ℝ) + 1) ^ ((i : ℕ) + 1))⁻¹) / ((0:ℝ) + 1) :=
  (c3_oscillator_strength_eval (CrossSectionCalc.init 100 AtomFactory.get_hydrogen)
    0 le_rfl 0).1

/-- C6 counterexample: a shell with w_max < 0 does not contribute a zero
integral term: for the one-shell atom with B = 1 and single fit
coefficient a_1 = 1 at T = 1/2 we get w_max = -1/4 ≤ 0, yet the code's
integral from 0 to w_max evaluates to -1/3 ≠ 0. -/
theorem c6_counterexample :
    (CrossSectionCalc.init (1 / 2) unitAtom).w_max 0 ≤ 0 ∧
    (∫ w in (0:ℝ)..(CrossSectionCalc.init (1 / 2) unitAtom).w_max 0,
        CrossSectionCalcBed.calculate_modified_oscillator_strength
          (CrossSectionCalc.init (1 / 2) unitAtom) w 0) = -(1 / 3) ∧
    (-(1 / 3) : ℝ) ≠ 0 := by
  have hwm : (CrossSectionCalc.init (1 / 2) unitAtom).w_max 0 = -(1 / 4) := by
    show ((1:ℝ) / 2 / unitAtom.B 0 - 1) / 2 = -(1 / 4)
    norm_num [unitAtom]
  have hint : ∀ w : ℝ,
      CrossSectionCalcBed.calculate_modified_oscillator_strength
        (CrossSectionCalc.init (1 / 2) unitAtom) w 0 = ((w + 1) ^ 2)⁻¹ := by
    intro w
    simp only [CrossSectionCalcBed.calculate_modified_oscillator_strength,
      CrossSectionCalc.init, unitAtom]
    simp [Fin.sum_univ_succ, one_div, pow_one, sq, mul_inv]
  refine ⟨by rw [hwm]; norm_num, ?_, by norm_num⟩
  rw [hwm]
  simp only [hint]
  have hshift : (∫ w in (0:ℝ)..(-(1 / 4) : ℝ), ((w + 1) ^ 2)⁻¹) =
      ∫ x in (0 + 1 : ℝ)..(-(1 / 4) + 1 : ℝ), (x ^ 2)⁻¹ :=
    intervalIntegral.integral_comp_add_right (fun x => (x ^ 2)⁻¹) 1
  rw [hshift]
  have hzp : ∀ x : ℝ, (x ^ 2)⁻¹ = x ^ (-2 : ℤ) := by
    intro x
    rw [zpow_neg, zpow_two, sq]
  simp only [hzp]
  rw [integral_zpow (Or.inr ⟨by norm_num, by simp [Set.mem_uIcc]; norm_num⟩)]
  norm_num

/-- C6 amended: a shell whose w_max is exactly 0 (in particular when
T = B[s]) contributes a zero integral term and its contribution reduces
to the closed term times factor; for w_max < 0 the code instead computes
the oriented integral from 0 to w_max, which need not vanish. -/
theorem c6_zero_wmax_integral {S : ℕ} (T : ℝ) (atom : Atom S) (s : Fin S)
    (h : (CrossSectionCalc.init T atom).w_max s = 0) :
    (∫ w in (0:ℝ)..(CrossSectionCalc.init T atom).w_max s,
        CrossSectionCalcBed.calculate_modified_oscillator_strength
          (CrossSectionCalc.init T atom) w s) = 0 ∧
    CrossSectionCalcBed.shell_contribution (CrossSectionCalc.init T atom) s =
      4 * Real.pi * CrossSectionCalc.a_0 ^ 2 * atom.N s *
          (CrossSectionCalc.R / atom.B s) ^ 2 /
          ((CrossSectionCalc.init T atom).t s + atom.U_bed s / atom.B s + 1) *
        ((2 - atom.Ni s / atom.N s) *
          (((CrossSectionCalc.init T atom).t s - 1) / (CrossSectionCalc.init T atom).t s -
            Real.log ((CrossSectionCalc.init T atom).t s) /
              ((CrossSectionCalc.init T atom).t s + 1))) := by
  constructor
  · rw [h]
    exact intervalIntegral.integral_same
  · simp only [CrossSectionCalcBed.shell_contribution]
    rw [h]
    rw [intervalIntegral.integral_same]
    simp only [CrossSectionCalc.init]
    ring

/-- Witness for the amended C6 at the concrete input T = B = 13.6057,
hydrogen: w_max = 0 there. -/
theorem c6_zero_wmax_integral_witness :
    (∫ w in (0:ℝ)..(CrossSectionCalc.init 13.6057 AtomFactory.get_hydrogen).w_max 0,
        CrossSectionCalcBed.calculate_modified_oscillator_strength
          (CrossSectionCalc.init 13.6057 AtomFactory.get_hydrogen) w 0) = 0 ∧
    CrossSectionCalcBed.shell_contribution
        (CrossSectionCalc.init 13.6057 AtomFactory.get_hydrogen) 0 =
      4 * Real.pi * CrossSectionCalc.a_0 ^ 2 * AtomFactory.get_hydrogen.N 0 *
          (CrossSectionCalc.R / AtomFactory.get_hydrogen.B 0) ^ 2 /
          ((CrossSectionCalc.init 13.6057 AtomFactory.get_hydrogen).t 0 +
            AtomFactory.get_hydrogen.U_bed 0 / AtomFactory.get_hydrogen.B 0 + 1) *
        ((2 - AtomFactory.get_hydrogen.Ni 0 / AtomFactory.get_hydrogen.N 0) *
          (((CrossSectionCalc.init 13.6057 AtomFactory.get_hydrogen).t 0 - 1) /
              (CrossSectionCalc.init 13.6057 AtomFactory.get_hydrogen).t 0 -
            Real.log ((CrossSectionCalc.init 13.6057 AtomFactory.get_hydrogen).t 0) /
              ((CrossSectionCalc.init 13.6057 AtomFactory.get_hydrogen).t 0 + 1))) :=
  c6_zero_wmax_integral 13.6057 AtomFactory.get_hydrogen 0
    (by
      show ((13.6057:ℝ) / AtomFactory.get_hydrogen.B 0 - 1) / 2 = 0
      norm_num [AtomFactory.get_hydrogen])

end
